import Mathlib

/-
Verification development for generate_tree.py: a GitHub activity fetcher with a
mock/fallback path (get_github_data) and an SVG tree renderer (draw_tree).

Shallow embedding notes:
* Geometry is over Rat; Python float arithmetic is modelled exactly by rational
  arithmetic (all constants are small literals).
* The random module and trigonometry are abstracted as an environment Env of
  arbitrary functions indexed by the loop counters of the call sites; theorems
  quantify over every environment, matching rendering that is deterministic
  modulo randomness.
* Exceptions are modelled by Option: a Python expression that can raise is a
  none-producing term, and the try/except of get_github_data is the Option
  match in its embedding.  In particular true division by zero
  (ZeroDivisionError) makes branchLen return none.
* File output is modelled as the list of (filename, content) writes performed.
-/

namespace GenTree

/-- Configured output path (generate_tree.py line 10). -/
def OUTPUT_FILE : String := "github_tree.svg"

/-- Configured repository cap (line 11): fewer, higher quality branches. -/
def MAX_REPOS : Nat := 6

/-- One repository entry of the data record: name, stars, commits. -/
structure RepoStat where
  name : String
  stars : Nat
  commits : Nat
deriving DecidableEq

/-- The record passed from get_github_data to draw_tree:
    years_active plus the ordered repository list. -/
structure ActivityData where
  years_active : Int
  repos : List RepoStat
deriving DecidableEq

/-- One repository node of the GraphQL response (lines 84-88): name,
    stargazerCount, and the default-branch history count when a default
    branch exists (none models a null defaultBranchRef, line 101). -/
structure RepoNode where
  name : String
  stargazerCount : Nat
  defaultBranchCommits : Option Nat

/-- The data.user part of a response body that parsed as JSON. -/
structure UserResp where
  createdAt : String
  nodes : List RepoNode

/-- Observable outcome of the network call: malformed covers a transport
    error, a body that response.json() cannot parse, or a non-dict body;
    body none covers an error-bearing response whose data.user is missing
    or null.  Both make the try block of get_github_data raise. -/
inductive Response where
  | malformed : Response
  | body : Option UserResp → Response

/-- Mock data returned without a token (lines 67-76). -/
def mockData : ActivityData :=
  { years_active := 3
    repos := [⟨"Project-A", 12, 150⟩, ⟨"Project-B", 5, 80⟩,
              ⟨"Project-C", 20, 300⟩, ⟨"Project-D", 2, 40⟩,
              ⟨"Project-E", 0, 20⟩] }

/-- Value of a decimal digit character, none otherwise. -/
def charDigit (c : Char) : Option Nat :=
  if 48 ≤ c.toNat ∧ c.toNat ≤ 57 then some (c.toNat - 48) else none

/-- Decimal accumulation over a character list; none at the first non-digit. -/
def parseNatAux : List Char → Nat → Option Nat
  | [], acc => some acc
  | c :: cs, acc =>
    match charDigit c with
    | none => none
    | some d => parseNatAux cs (acc * 10 + d)

/-- Embedding of int(createdAt[:4]) at line 97: parse the first 4 characters
    of the string as a decimal number; none models the ValueError raised on a
    string whose first characters are not digits (sign and whitespace forms of
    the Python parser do not occur in ISO date strings and are not modelled). -/
def parseYear (s : String) : Option Int :=
  match s.data.take 4 with
  | [] => none
  | cs => (parseNatAux cs 0).map Int.ofNat

/-- Body of the try block of get_github_data (lines 94-104).  A returned none
    models any raised exception: transport failure, malformed JSON, missing or
    null data.user, or an unparsable createdAt year.  On success: years_active
    is max 1 (currentYear - createdYear + 1) with the year read from the first
    4 characters of createdAt; repositories resolve a missing default branch
    to 0 commits, keep only commits > 0, and are truncated to MAX_REPOS. -/
def tryFetch (currentYear : Int) (resp : Response) : Option ActivityData :=
  match resp with
  | .malformed => none
  | .body none => none
  | .body (some user) =>
    match parseYear user.createdAt with
    | none => none
    | some createdYear =>
      let yearsActive := max 1 (currentYear - createdYear + 1)
      let repos := user.nodes.filterMap fun node =>
        let commits := node.defaultBranchCommits.getD 0
        if commits > 0 then
          some (⟨node.name, node.stargazerCount, commits⟩ : RepoStat)
        else none
      some { years_active := yearsActive, repos := repos.take MAX_REPOS }

/-- get_github_data (lines 64-106): without a token return the mock data
    without touching the network; with a token run the try block and, on any
    exception, fall back to years_active 1 with an empty repository list. -/
def get_github_data (hasToken : Bool) (currentYear : Int) (resp : Response) :
    ActivityData :=
  if !hasToken then mockData
  else
    match tryFetch currentYear resp with
    | some d => d
    | none => { years_active := 1, repos := [] }

/-- Path data of an add_path call: the literal d strings of the ground
    (lines 113-114) and the move-then-quadratic-Bezier d strings built by
    f-strings for the trunk and the branches (lines 131, 163). -/
inductive PathD where
  | raw : String → PathD
  | moveQuad : Rat → Rat → Rat → Rat → Rat → Rat → PathD
deriving DecidableEq

/-- One drawing primitive of the SVG helper class (lines 36-47). -/
inductive Element where
  | rect : Rat → Rat → Rat → Rat → String → Element
  | path : PathD → String → Rat → String → Rat → Element
  | circle : Rat → Rat → Rat → String → Rat → Element
  | text : Rat → Rat → String → Rat → String → Element
deriving DecidableEq

/-- The SVG helper class state (lines 14-18): fixed width and height plus the
    append-only element list. -/
structure SVG where
  width : Nat
  height : Nat
  elements : List Element
deriving DecidableEq

/-- add_rect (lines 36-37). -/
def SVG.add_rect (s : SVG) (x y w h : Rat) (fill : String) : SVG :=
  { s with elements := s.elements ++ [.rect x y w h fill] }

/-- add_path (lines 39-41): d, stroke, stroke-width, fill, stroke-opacity. -/
def SVG.add_path (s : SVG) (d : PathD) (stroke : String) (w : Rat)
    (fill : String) (opacity : Rat) : SVG :=
  { s with elements := s.elements ++ [.path d stroke w fill opacity] }

/-- add_circle (lines 43-44). -/
def SVG.add_circle (s : SVG) (cx cy r : Rat) (fill : String) (opacity : Rat) :
    SVG :=
  { s with elements := s.elements ++ [.circle cx cy r fill opacity] }

/-- add_text (lines 46-47). -/
def SVG.add_text (s : SVG) (x y : Rat) (content : String) (size : Rat)
    (color : String) : SVG :=
  { s with elements := s.elements ++ [.text x y content size color] }

/-- The defs block embedded in every document (lines 20-34). -/
def svgDefs : String :=
  "<defs><linearGradient id=\"sky\" x1=\"0%\" y1=\"0%\" x2=\"0%\" y2=\"100%\">"
    ++ "<stop offset=\"0%\" style=\"stop-color:#e0f7fa;stop-opacity:1\" />"
    ++ "<stop offset=\"100%\" style=\"stop-color:#ffffff;stop-opacity:1\" />"
    ++ "</linearGradient>"
    ++ "<filter id=\"glow\" x=\"-20%\" y=\"-20%\" width=\"140%\" height=\"140%\">"
    ++ "<feGaussianBlur stdDeviation=\"2\" result=\"coloredBlur\"/>"
    ++ "<feMerge><feMergeNode in=\"coloredBlur\"/>"
    ++ "<feMergeNode in=\"SourceGraphic\"/></feMerge></filter></defs>"

/-- Serialization of a d string (string formatting of numbers abstracted to
    toString on Rat). -/
def pathDStr : PathD → String
  | .raw s => s
  | .moveQuad x0 y0 cx cy x1 y1 =>
      "M" ++ toString x0 ++ "," ++ toString y0 ++ " Q" ++ toString cx ++ ","
        ++ toString cy ++ " " ++ toString x1 ++ "," ++ toString y1

/-- Serialization of one element, mirroring the f-strings of the add methods. -/
def elemStr : Element → String
  | .rect x y w h fill =>
      "<rect x=\"" ++ toString x ++ "\" y=\"" ++ toString y ++ "\" width=\""
        ++ toString w ++ "\" height=\"" ++ toString h ++ "\" fill=\"" ++ fill
        ++ "\" />"
  | .path d stroke w fill opacity =>
      "<path d=\"" ++ pathDStr d ++ "\" stroke=\"" ++ stroke
        ++ "\" stroke-width=\"" ++ toString w ++ "\" fill=\"" ++ fill
        ++ "\" stroke-linecap=\"round\" stroke-opacity=\"" ++ toString opacity
        ++ "\" />"
  | .circle cx cy r fill opacity =>
      "<circle cx=\"" ++ toString cx ++ "\" cy=\"" ++ toString cy ++ "\" r=\""
        ++ toString r ++ "\" fill=\"" ++ fill ++ "\" fill-opacity=\""
        ++ toString opacity ++ "\" />"
  | .text x y content size color =>
      "<text x=\"" ++ toString x ++ "\" y=\"" ++ toString y
        ++ "\" font-family=\"Segoe UI, Helvetica, Arial, sans-serif\""
        ++ " font-size=\"" ++ toString size ++ "\" fill=\"" ++ color
        ++ "\" text-anchor=\"middle\" font-weight=\"bold\">" ++ content
        ++ "</text>"

/-- Opening svg tag with the declared canvas dimensions (line 50). -/
def svgHeader (w h : Nat) : String :=
  "<svg xmlns=\"http://www.w3.org/2000/svg\" width=\"" ++ toString w
    ++ "\" height=\"" ++ toString h ++ "\" viewBox=\"0 0 " ++ toString w ++ " "
    ++ toString h ++ "\">"

/-- save (lines 49-56): the single (filename, content) write performed. -/
def SVG.save (s : SVG) (filename : String) : String × String :=
  (filename,
    svgHeader s.width s.height
      ++ (svgDefs
        ++ ("<rect width=\"100%\" height=\"100%\" fill=\"url(#sky)\"/>"
          ++ (String.intercalate "\n" (s.elements.map elemStr) ++ "</svg>"))))

/-- Abstraction of the random module and of math.cos/math.sin: one field per
    random call site of draw_tree, indexed by the loop counters there, so two
    different calls may return different values.  Theorems quantify over
    every environment. -/
structure Env where
  bend : Int
  branchJitter : Nat → Int
  leafDX : Nat → Nat → Rat
  leafDY : Nat → Nat → Rat
  leafColorIdx : Nat → Nat → Nat
  leafR : Nat → Nat → Nat
  starDX : Nat → Nat → Rat
  starDY : Nat → Nat → Rat
  cosDeg : Rat → Rat
  sinDeg : Rat → Rat

/-- get_endpoint (lines 59-61), with the cosine and sine of the degree angle
    supplied by the environment. -/
def get_endpoint (env : Env) (x y len angle : Rat) : Rat × Rat :=
  (x + len * env.cosDeg angle, y + len * env.sinDeg angle)

/-- Trunk stroke width (line 132): 25 + years_active * 2. -/
def trunkWidth (years : Int) : Rat := 25 + (years : Rat) * 2

/-- total_commits (line 137): the sum of the commit counts when the repository
    list is non-empty, and 1 otherwise. -/
def total_commits (repos : List RepoStat) : Nat :=
  if repos.isEmpty then 1 else (repos.map fun r => r.commits).sum

/-- Branch length (lines 150-151): 100 + (commits / total) * 150 capped at
    250.  Python true division raises ZeroDivisionError when total = 0,
    modelled as none. -/
def branchLen (commits total : Nat) : Option Rat :=
  if total = 0 then none
  else some (min (100 + ((commits : Rat) / (total : Rat)) * 150) 250)

/-- Leaf cluster size (line 167): min(40, max(10, commits // 5)). -/
def cluster_size (commits : Nat) : Nat := min 40 (max 10 (commits / 5))

/-- Flower count when stars > 0 (line 183): min(5, stars). -/
def star_count (stars : Nat) : Nat := min 5 stars

/-- Leaf color palette (line 175), dark to light green. -/
def leafColors : List String := ["#2e7d32", "#43a047", "#66bb6a", "#a5d6a7"]

/-- Leaf cluster of one branch (lines 166-179): cluster_size circles jittered
    around the branch tip, colored from the palette, radius in 8..16,
    opacity 0.7. -/
def leafCircles (env : Env) (i : Nat) (bx yTip : Rat) (commits : Nat) :
    List Element :=
  (List.range (cluster_size commits)).map fun j =>
    let lx := bx + env.leafDX i j
    let ly := yTip + env.leafDY i j
    let leafColor := leafColors.getD (env.leafColorIdx i j % leafColors.length)
      "#2e7d32"
    let leafSize := env.leafR i j
    .circle lx ly (leafSize : Rat) leafColor (7 / 10)

/-- Flower glyphs of one branch (lines 181-188): only when stars > 0, emit
    star_count glyphs, each a bright core circle (r 5, opacity 1) followed by
    a larger translucent glow circle (r 9, opacity 0.3) at the same jittered
    point near the tip. -/
def flowerCircles (env : Env) (i : Nat) (bx yTip : Rat) (stars : Nat) :
    List Element :=
  if stars > 0 then
    (List.range (star_count stars)).flatMap fun j =>
      let sx := bx + env.starDX i j
      let sy := yTip + env.starDY i j
      [.circle sx sy 5 "#ffeb3b" 1, .circle sx sy 9 "#ffeb3b" (3 / 10)]
  else []

/-- One iteration of the branch loop body (lines 144-188) for repository repo
    at index i with attachment ordinate currentY: the branch path followed by
    its leaf cluster and its flower glyphs.  none propagates the
    ZeroDivisionError of branchLen. -/
def drawBranch (env : Env) (trunkEndX : Rat) (total : Nat) (i : Nat)
    (currentY : Rat) (repo : RepoStat) : Option (List Element) :=
  let isRight := i % 2 = 0
  let direction : Rat := if isRight then 1 else -1
  match branchLen repo.commits total with
  | none => none
  | some blen =>
    let angleBase : Rat := if isRight then -45 else -135
    let angle := angleBase + (env.branchJitter i : Rat)
    let tip := get_endpoint env trunkEndX currentY blen angle
    let bCtrlX := trunkEndX + blen / 2 * direction
    let bCtrlY := currentY - 20
    some ([Element.path (.moveQuad trunkEndX currentY bCtrlX bCtrlY tip.1 tip.2)
        "#5d4037" 8 "none" 1]
      ++ leafCircles env i tip.1 tip.2 repo.commits
      ++ flowerCircles env i tip.1 tip.2 repo.stars)

/-- The branch loop (lines 144-191): index i counts up, current_y moves up by
    15 per branch. -/
def drawBranches (env : Env) (trunkEndX : Rat) (total : Nat) :
    Nat → Rat → List RepoStat → Option (List Element)
  | _, _, [] => some []
  | i, currentY, repo :: rest =>
    match drawBranch env trunkEndX total i currentY repo with
    | none => none
    | some es =>
      match drawBranches env trunkEndX total (i + 1) (currentY - 15) rest with
      | none => none
      | some more => some (es ++ more)

/-- The in-place repos.sort of line 142: stable sort descending by commit
    count (key commits, reverse true). -/
def sortRepos (rs : List RepoStat) : List RepoStat :=
  List.insertionSort (fun a b => b.commits ≤ a.commits) rs

/-- Apostrophe character, kept out of string literals. -/
def apos : String := String.singleton (Char.ofNat 39)

/-- draw_tree (lines 109-198): ground, curved trunk whose width grows with
    years_active, one branch per repository of the in-place sorted list, two
    captions, then exactly one save call.  The result is the final SVG value
    together with the list of file writes performed; none models the
    uncaught ZeroDivisionError of the branch-length computation. -/
def draw_tree (env : Env) (username : String) (data : ActivityData) :
    Option (SVG × List (String × String)) :=
  let svg : SVG := ⟨800, 600, []⟩
  let svg := svg.add_path (.raw "M0,550 Q400,530 800,550 L800,600 L0,600 Z")
    "#4e342e" 0 "#5d4037" 1
  let svg := svg.add_path (.raw "M0,550 Q400,530 800,550") "none" 0 "#76ff03"
    (1 / 10)
  let startX : Rat := 400
  let startY : Rat := 550
  let trunkLen : Rat := 160
  let bend : Rat := (env.bend : Rat)
  let trunkEndX := startX + bend
  let trunkEndY := startY - trunkLen
  let ctrlX := startX + bend / 2
  let ctrlY := startY - trunkLen / 2
  let svg := svg.add_path (.moveQuad startX startY ctrlX ctrlY trunkEndX
    trunkEndY) "#4e342e" (trunkWidth data.years_active) "none" 1
  let total := total_commits data.repos
  let currentY := trunkEndY + 40
  let repos := sortRepos data.repos
  match drawBranches env trunkEndX total 0 currentY repos with
  | none => none
  | some branchEls =>
    let svg : SVG := { svg with elements := svg.elements ++ branchEls }
    let svg := svg.add_text 400 580
      ("@" ++ username ++ apos ++ "s Contribution Garden") 20 "#3e2723"
    let svg := svg.add_text 400 595
      ("Grown over " ++ toString data.years_active ++ " years") 14 "#5d4037"
    some (svg, [svg.save OUTPUT_FILE])

/-- The repository list object of the input record after draw_tree returns:
    line 142 sorted it in place. -/
def reposAfterDraw (data : ActivityData) : List RepoStat := sortRepos data.repos

/-- Recognizes the branch paths among the emitted elements: the branch stroke
    color #5d4037 is used by no other path stroke (ground and trunk use
    #4e342e or none). -/
def isBranchPath : Element → Bool
  | .path _ stroke _ _ _ => stroke == "#5d4037"
  | _ => false

/-- Number of repositories rendered as branches in a finished scene. -/
def branchCount (svg : SVG) : Nat := svg.elements.countP isBranchPath

/-- Concrete environment used for witnesses. -/
def env0 : Env :=
  { bend := 0, branchJitter := fun _ => 0, leafDX := fun _ _ => 0,
    leafDY := fun _ _ => 0, leafColorIdx := fun _ _ => 0,
    leafR := fun _ _ => 8, starDX := fun _ _ => 0, starDY := fun _ _ => 0,
    cosDeg := fun _ => 0, sinDeg := fun _ => 0 }

lemma countP_leafCircles (env : Env) (i : Nat) (bx yTip : Rat) (c : Nat) :
    (leafCircles env i bx yTip c).countP isBranchPath = 0 := by
  rw [List.countP_eq_zero]
  intro a ha
  simp only [leafCircles, List.mem_map] at ha
  obtain ⟨j, -, rfl⟩ := ha
  simp [isBranchPath]

lemma countP_flowerCircles (env : Env) (i : Nat) (bx yTip : Rat) (st : Nat) :
    (flowerCircles env i bx yTip st).countP isBranchPath = 0 := by
  rw [List.countP_eq_zero]
  intro a ha
  simp only [flowerCircles] at ha
  split at ha
  · simp only [List.mem_flatMap, List.mem_range] at ha
    obtain ⟨j, -, hj⟩ := ha
    simp only [List.mem_cons, List.mem_singleton] at hj
    rcases hj with rfl | rfl | h
    · simp [isBranchPath]
    · simp [isBranchPath]
    · simp at h
  · simp at ha

lemma drawBranch_countP {env : Env} {x : Rat} {total i : Nat} {y : Rat}
    {repo : RepoStat} {es : List Element}
    (h : drawBranch env x total i y repo = some es) :
    es.countP isBranchPath = 1 := by
  unfold drawBranch at h
  rcases hbl : branchLen repo.commits total with - | blen <;> rw [hbl] at h
  · exact absurd h (by simp)
  · simp only [Option.some.injEq] at h
    subst h
    simp [List.countP_append, List.countP_cons, countP_leafCircles,
      countP_flowerCircles, isBranchPath]

lemma drawBranch_some {total : Nat} (h : total ≠ 0) (env : Env) (x : Rat)
    (i : Nat) (y : Rat) (repo : RepoStat) :
    ∃ es, drawBranch env x total i y repo = some es := by
  unfold drawBranch branchLen
  simp [h]

lemma drawBranches_some {total : Nat} (h : total ≠ 0) (env : Env) (x : Rat) :
    ∀ (rs : List RepoStat) (i : Nat) (y : Rat),
      ∃ els, drawBranches env x total i y rs = some els := by
  intro rs
  induction rs with
  | nil => exact fun i y => ⟨[], rfl⟩
  | cons repo rest ih =>
    intro i y
    obtain ⟨es, hes⟩ := drawBranch_some h env x i y repo
    obtain ⟨more, hmore⟩ := ih (i + 1) (y - 15)
    exact ⟨es ++ more, by simp [drawBranches, hes, hmore]⟩

lemma drawBranches_countP {env : Env} {x : Rat} {total : Nat} :
    ∀ {rs : List RepoStat} {i : Nat} {y : Rat} {els : List Element},
      drawBranches env x total i y rs = some els →
      els.countP isBranchPath = rs.length := by
  intro rs
  induction rs with
  | nil =>
    intro i y els h
    simp only [drawBranches, Option.some.injEq] at h
    subst h; rfl
  | cons repo rest ih =>
    intro i y els h
    unfold drawBranches at h
    rcases hb : drawBranch env x total i y repo with - | es <;> rw [hb] at h
    · exact absurd h (by simp)
    · rcases hr : drawBranches env x total (i + 1) (y - 15) rest
        with - | more <;> rw [hr] at h
      · exact absurd h (by simp)
      · simp only [Option.some.injEq] at h
        subst h
        simp [List.countP_append, drawBranch_countP hb, ih hr, List.length_cons,
          Nat.add_comm]

lemma sortRepos_perm (rs : List RepoStat) : (sortRepos rs).Perm rs :=
  List.perm_insertionSort _ rs

lemma sortRepos_length (rs : List RepoStat) :
    (sortRepos rs).length = rs.length :=
  (sortRepos_perm rs).length_eq

lemma draw_tree_spec (env : Env) (u : String) (d : ActivityData)
    (h : total_commits d.repos ≠ 0) :
    ∃ svg : SVG, draw_tree env u d = some (svg, [svg.save OUTPUT_FILE]) ∧
      svg.width = 800 ∧ svg.height = 600 ∧ branchCount svg = d.repos.length := by
  obtain ⟨els, hels⟩ :=
    drawBranches_some h env (400 + (env.bend : Rat)) (sortRepos d.repos) 0
      (550 - 160 + 40)
  simp only [draw_tree]
  rw [hels]
  refine ⟨_, rfl, rfl, rfl, ?_⟩
  simp only [branchCount, SVG.add_path, SVG.add_text, List.countP_append,
    List.countP_cons, List.countP_nil, isBranchPath]
  rw [drawBranches_countP hels, sortRepos_length]
  simp [show ("#4e342e" == "#5d4037") = false from rfl,
    show ("none" == "#5d4037") = false from rfl]

instance : IsTotal RepoStat (fun a b => b.commits ≤ a.commits) :=
  ⟨fun a b => le_total b.commits a.commits⟩

instance : IsTrans RepoStat (fun a b => b.commits ≤ a.commits) :=
  ⟨fun _ _ _ h1 h2 => le_trans h2 h1⟩

lemma tryFetch_length {cy : Int} {resp : Response} {d : ActivityData}
    (h : tryFetch cy resp = some d) : d.repos.length ≤ MAX_REPOS := by
  rcases resp with - | ou
  · exact absurd h (by simp [tryFetch])
  · rcases ou with - | user
    · exact absurd h (by simp [tryFetch])
    · simp only [tryFetch] at h
      rcases hp : parseYear user.createdAt with - | y <;> rw [hp] at h
      · exact absurd h (by simp)
      · simp only [Option.some.injEq] at h
        subst h
        exact List.length_take_le MAX_REPOS _

lemma tryFetch_years {cy : Int} {resp : Response} {d : ActivityData}
    (h : tryFetch cy resp = some d) : 1 ≤ d.years_active := by
  rcases resp with - | ou
  · exact absurd h (by simp [tryFetch])
  · rcases ou with - | user
    · exact absurd h (by simp [tryFetch])
    · simp only [tryFetch] at h
      rcases hp : parseYear user.createdAt with - | y <;> rw [hp] at h
      · exact absurd h (by simp)
      · simp only [Option.some.injEq] at h
        subst h
        exact le_max_left 1 _

lemma draw_tree_branchCount {env : Env} {u : String} {d : ActivityData}
    {svg : SVG} {ws : List (String × String)}
    (h : draw_tree env u d = some (svg, ws)) :
    branchCount svg = d.repos.length := by
  simp only [draw_tree] at h
  rcases hbr : drawBranches env (400 + (env.bend : Rat)) (total_commits d.repos)
      0 (550 - 160 + 40) (sortRepos d.repos) with - | els <;> rw [hbr] at h
  · exact absurd h (by simp)
  · simp only [Option.some.injEq, Prod.mk.injEq] at h
    obtain ⟨h1, -⟩ := h
    subst h1
    simp only [branchCount, SVG.add_path, SVG.add_text, List.countP_append,
      List.countP_cons, List.countP_nil, isBranchPath]
    rw [drawBranches_countP hbr, sortRepos_length]
    simp [show ("#4e342e" == "#5d4037") = false from rfl,
      show ("none" == "#5d4037") = false from rfl]

lemma total_commits_cons (r : RepoStat) (rs : List RepoStat) :
    total_commits (r :: rs) = (List.map (fun x => x.commits) (r :: rs)).sum :=
  rfl

lemma total_commits_ne_zero {rs : List RepoStat}
    (h : rs = [] ∨ 0 < (rs.map fun r => r.commits).sum) :
    total_commits rs ≠ 0 := by
  rcases rs with - | ⟨a, t⟩
  · simp [total_commits]
  · rcases h with h | h
    · simp at h
    · rw [total_commits_cons]
      omega

lemma length_flatMap_pair {α β : Type} (l : List α) (f g : α → β) :
    (l.flatMap fun a => [f a, g a]).length = 2 * l.length := by
  induction l with
  | nil => rfl
  | cons a t ih =>
    simp only [List.flatMap_cons, List.length_append, List.length_cons,
      List.length_nil, ih]
    omega


/-- A record whose single repository has zero commits: non-empty list, all
    commit counts zero. -/
def zeroCommitData : ActivityData := ⟨1, [⟨"Zero-Repo", 0, 0⟩]⟩

/-- Seven one-commit repositories, one more than MAX_REPOS. -/
def sevenRepos : List RepoStat :=
  [⟨"R1", 0, 1⟩, ⟨"R2", 0, 1⟩, ⟨"R3", 0, 1⟩, ⟨"R4", 0, 1⟩, ⟨"R5", 0, 1⟩,
   ⟨"R6", 0, 1⟩, ⟨"R7", 0, 1⟩]

/-- The successful render of the empty fallback record under env0. -/
def emptyRender : SVG × List (String × String) :=
  match draw_tree env0 "user" ⟨1, []⟩ with
  | some r => r
  | none => ⟨⟨0, 0, []⟩, []⟩

/-- Claim C1: on a non-empty repository list whose commit counts are all zero,
    line 137 computes the sum 0 as the denominator (the substitution by 1
    happens only for an empty list), so the branch-length division of line 150
    raises ZeroDivisionError and draw_tree crashes instead of producing a
    finite clamped length. -/
theorem C1_div_by_zero_on_all_zero_commits :
    total_commits zeroCommitData.repos = 0 ∧
    branchLen 0 (total_commits zeroCommitData.repos) = none ∧
    draw_tree env0 "user" zeroCommitData = none :=
  ⟨rfl, rfl, rfl⟩

/-- Claim C2: every failure of the network path (transport error, non-success
    status, malformed or error-bearing body — everything that makes the try
    block raise) is caught: get_github_data returns the fallback record with
    years_active 1 and an empty repository list, and rendering that fallback
    succeeds with its single file write. -/
theorem C2_network_failure_fallback (cy : Int) (env : Env) (user : String) :
    tryFetch cy Response.malformed = none ∧
    tryFetch cy (Response.body none) = none ∧
    ∀ resp, tryFetch cy resp = none →
      get_github_data true cy resp = { years_active := 1, repos := [] } ∧
      ∃ svg, draw_tree env user { years_active := 1, repos := [] } =
        some (svg, [svg.save OUTPUT_FILE]) := by
  refine ⟨rfl, rfl, fun resp h => ⟨?_, ?_⟩⟩
  · simp [get_github_data, h]
  · obtain ⟨svg, hs, -, -, -⟩ :=
      draw_tree_spec env user ⟨1, []⟩ (by decide)
    exact ⟨svg, hs⟩

/-- Witness for C2 at a concrete malformed response. -/
theorem C2_witness :
    get_github_data true 2026 Response.malformed =
      { years_active := 1, repos := [] } :=
  ((C2_network_failure_fallback 2026 env0 "user").2.2 Response.malformed rfl).1

/-- Counterexample to claim C3 as stated: the renderer itself enforces no cap,
    so a record with seven repositories is rendered with seven branches,
    exceeding MAX_REPOS = 6. -/
theorem C3_counterexample :
    ∃ svg, draw_tree env0 "user" ⟨1, sevenRepos⟩ =
      some (svg, [svg.save OUTPUT_FILE]) ∧ MAX_REPOS < branchCount svg := by
  obtain ⟨svg, hs, -, -, hc⟩ :=
    draw_tree_spec env0 "user" ⟨1, sevenRepos⟩ (by decide)
  exact ⟨svg, hs, by rw [hc]; decide⟩

/-- Claim C3 (amended): every record the fetcher produces carries at most
    MAX_REPOS = 6 repositories (the success path truncates, the fallback is
    empty, the mock has five), and the renderer draws exactly one branch per
    repository it is given — the cap is enforced by the fetcher only, not by
    the renderer. -/
theorem C3_repo_cap :
    (∀ (tok : Bool) (cy : Int) (resp : Response),
      (get_github_data tok cy resp).repos.length ≤ MAX_REPOS) ∧
    (∀ (env : Env) (u : String) (d : ActivityData) (res : SVG × List (String × String)),
      draw_tree env u d = some res → branchCount res.1 = d.repos.length) := by
  constructor
  · intro tok cy resp
    rcases tok with - | -
    · simp [get_github_data, mockData, MAX_REPOS]
    · simp only [get_github_data]
      rcases h : tryFetch cy resp with - | d
      · simp
      · simpa using tryFetch_length h
  · intro env u d res h
    exact draw_tree_branchCount h

/-- Witness for C3 at the empty fallback record under env0. -/
theorem C3_witness : branchCount emptyRender.1 = 0 :=
  C3_repo_cap.2 env0 "user" ⟨1, []⟩ emptyRender rfl

/-- Counterexample to claim C4 as stated: rendering the mock record reorders
    its repository list in place (line 142), so the record is not left
    unchanged. -/
theorem C4_counterexample : reposAfterDraw mockData ≠ mockData.repos := by
  decide

/-- Claim C4 (amended): draw_tree mutates the repositories sequence in place
    by a stable sort descending on commit count, so after rendering the
    sequence is a permutation of the one consumed — same entries, generally a
    different order — sorted so that commit counts are non-increasing. -/
theorem C4_sort_in_place (d : ActivityData) :
    (reposAfterDraw d).Perm d.repos ∧
    List.Pairwise (fun a b => b.commits ≤ a.commits) (reposAfterDraw d) :=
  ⟨sortRepos_perm d.repos, List.sorted_insertionSort _ d.repos⟩

/-- Claim C5: a branch of a zero-star repository gets no flower glyphs; a
    branch of a repository with stars > 0 gets exactly min 5 stars glyphs,
    each a bright core circle (radius 5, opacity 1) followed by a larger
    translucent glow circle (radius 9, opacity 3/10) at the same point. -/
theorem C5_flower_glyphs (env : Env) (i : Nat) (bx yTip : Rat) (stars : Nat) :
    (stars = 0 → flowerCircles env i bx yTip stars = []) ∧
    (0 < stars →
      flowerCircles env i bx yTip stars =
        (List.range (min 5 stars)).flatMap (fun j =>
          [Element.circle (bx + env.starDX i j) (yTip + env.starDY i j) 5
            "#ffeb3b" 1,
           Element.circle (bx + env.starDX i j) (yTip + env.starDY i j) 9
            "#ffeb3b" (3 / 10)]) ∧
      (flowerCircles env i bx yTip stars).length = 2 * min 5 stars) := by
  constructor
  · intro h0
    subst h0
    simp [flowerCircles]
  · intro hs
    have he : flowerCircles env i bx yTip stars =
        (List.range (min 5 stars)).flatMap (fun j =>
          [Element.circle (bx + env.starDX i j) (yTip + env.starDY i j) 5
            "#ffeb3b" 1,
           Element.circle (bx + env.starDX i j) (yTip + env.starDY i j) 9
            "#ffeb3b" (3 / 10)]) := by
      simp only [flowerCircles, star_count, if_pos hs]
    refine ⟨he, ?_⟩
    rw [he, length_flatMap_pair, List.length_range]

/-- Witness for C5 at stars = 3: exactly min 5 3 = 3 glyphs, 6 circles. -/
theorem C5_witness : (flowerCircles env0 0 0 0 3).length = 2 * min 5 3 :=
  ((C5_flower_glyphs env0 0 0 0 3).2 (by decide)).2

/-- Claim C6: trunk stroke width (line 132) is the linear function
    25 + 2 * years_active, non-decreasing in years_active, and strictly larger
    at years_active = 5 than at years_active = 1. -/
theorem C6_trunk_width :
    (∀ y : Int, trunkWidth y = 25 + 2 * (y : Rat)) ∧
    (∀ y1 y2 : Int, y1 ≤ y2 → trunkWidth y1 ≤ trunkWidth y2) ∧
    trunkWidth 1 < trunkWidth 5 := by
  refine ⟨fun y => by unfold trunkWidth; ring, fun y1 y2 h => ?_, ?_⟩
  · unfold trunkWidth
    have hc : (y1 : Rat) ≤ (y2 : Rat) := by exact_mod_cast h
    linarith
  · norm_num [trunkWidth]

/-- Witness for C6 at years 1 and 5. -/
theorem C6_witness : trunkWidth 1 ≤ trunkWidth 5 :=
  C6_trunk_width.2.1 1 5 (by decide)

/-- Claim C7: the leaf-cluster circle count min 40 (max 10 (commits / 5)) is
    monotone in the commit count, clamped between the positive minimum 10 (a
    zero-commit repository still gets a token cluster) and the maximum 40, and
    the cluster drawn for a branch has exactly that many circles. -/
theorem C7_leaf_cluster (env : Env) (i : Nat) (bx yTip : Rat) (c1 c2 : Nat) :
    (c1 ≤ c2 → cluster_size c1 ≤ cluster_size c2) ∧
    0 < cluster_size c1 ∧ 10 ≤ cluster_size c1 ∧ cluster_size c1 ≤ 40 ∧
    (leafCircles env i bx yTip c1).length = cluster_size c1 := by
  refine ⟨fun h => ?_, ?_, ?_, ?_, ?_⟩
  · exact min_le_min (le_refl 40)
      (max_le_max (le_refl 10) (Nat.div_le_div_right h))
  · exact lt_of_lt_of_le (by norm_num)
      (le_min (by norm_num) (le_max_left 10 _))
  · exact le_min (by norm_num) (le_max_left 10 _)
  · exact min_le_left 40 _
  · simp [leafCircles]

/-- Witness for C7 comparing the mock Project-A (150 commits) with the mock
    Project-C (300 commits). -/
theorem C7_witness : cluster_size 150 ≤ cluster_size 300 :=
  (C7_leaf_cluster env0 0 0 0 150 300).1 (by decide)

/-- Claim C8: on the successful network path years_active is
    max 1 (currentYear - createdYear + 1), with the creation year parsed from
    the first 4 characters of createdAt, and every record the fetcher can
    return has years_active at least 1. -/
theorem C8_years_active :
    (∀ (cy y : Int) (u : UserResp), parseYear u.createdAt = some y →
      ∃ d, tryFetch cy (Response.body (some u)) = some d ∧
        d.years_active = max 1 (cy - y + 1)) ∧
    (∀ (tok : Bool) (cy : Int) (resp : Response),
      1 ≤ (get_github_data tok cy resp).years_active) := by
  constructor
  · intro cy y u hp
    simp only [tryFetch]
    rw [hp]
    exact ⟨_, rfl, rfl⟩
  · intro tok cy resp
    rcases tok with - | -
    · simp [get_github_data, mockData]
    · simp only [get_github_data]
      rcases h : tryFetch cy resp with - | d
      · simp
      · simpa using tryFetch_years h

/-- Witness for C8 with createdAt 2013 and current year 2026. -/
theorem C8_witness :
    ∃ d, tryFetch 2026 (Response.body (some ⟨"2013-04-01T00:00:00Z", []⟩)) =
      some d ∧ d.years_active = max 1 (2026 - 2013 + 1) :=
  C8_years_active.1 2026 2013 ⟨"2013-04-01T00:00:00Z", []⟩ (by decide)

/-- Counterexample to claim C9 as stated: a valid record (all numeric fields
    non-negative) with two zero-commit repositories makes draw_tree raise
    before reaching the save call, so no output file is written. -/
theorem C9_counterexample :
    draw_tree env0 "user" ⟨3, [⟨"A", 0, 0⟩, ⟨"B", 0, 0⟩]⟩ = none := rfl

/-- Claim C9 (amended): for every record whose repository list is empty or has
    positive total commit count, draw_tree terminates with exactly one file
    write, at OUTPUT_FILE, whose content declares the fixed 800 by 600
    canvas. -/
theorem C9_render_writes (env : Env) (u : String) (d : ActivityData)
    (h : d.repos = [] ∨ 0 < (d.repos.map fun r => r.commits).sum) :
    ∃ svg content, draw_tree env u d = some (svg, [(OUTPUT_FILE, content)]) ∧
      svg.width = 800 ∧ svg.height = 600 ∧
      ∃ rest, content = svgHeader 800 600 ++ rest := by
  have htot : total_commits d.repos ≠ 0 := total_commits_ne_zero h
  obtain ⟨svg, hs, hw, hh, -⟩ := draw_tree_spec env u d htot
  refine ⟨svg, (svg.save OUTPUT_FILE).2, ?_, hw, hh, ?_⟩
  · rw [hs]
    rfl
  · refine ⟨svgDefs ++ ("<rect width=\"100%\" height=\"100%\" fill=\"url(#sky)\"/>"
      ++ (String.intercalate "\n" (svg.elements.map elemStr) ++ "</svg>")), ?_⟩
    have hc : (svg.save OUTPUT_FILE).2 =
        svgHeader svg.width svg.height
          ++ (svgDefs ++ ("<rect width=\"100%\" height=\"100%\" fill=\"url(#sky)\"/>"
            ++ (String.intercalate "\n" (svg.elements.map elemStr) ++ "</svg>"))) := rfl
    rw [hc, hw, hh]

/-- Witness for C9 at the mock record under env0. -/
theorem C9_witness :
    ∃ svg content, draw_tree env0 "user" mockData =
      some (svg, [(OUTPUT_FILE, content)]) ∧
      svg.width = 800 ∧ svg.height = 600 ∧
      ∃ rest, content = svgHeader 800 600 ++ rest :=
  C9_render_writes env0 "user" mockData (Or.inr (by decide))

/-- Claim C10: when the repository list is non-empty and the total commit
    count is positive, every branch length is defined and lies in [100, 250],
    and the cap min _ 250 never strictly reduces the proportional value
    because each commit count is at most the total. -/
theorem C10_branch_length_bounds (rs : List RepoStat) (r : RepoStat)
    (h1 : rs ≠ []) (h2 : 0 < (rs.map fun x => x.commits).sum) (h3 : r ∈ rs) :
    ∃ l, branchLen r.commits (total_commits rs) = some l ∧
      l = 100 + ((r.commits : Rat) /
        (((rs.map fun x => x.commits).sum : Nat) : Rat)) * 150 ∧
      100 ≤ l ∧ l ≤ 250 := by
  have hts : total_commits rs = (rs.map fun x => x.commits).sum := by
    rcases rs with - | ⟨a, t⟩
    · exact absurd rfl h1
    · exact total_commits_cons a t
  set s : Nat := (rs.map fun x => x.commits).sum
  have hc : r.commits ≤ s :=
    List.single_le_sum (fun x _ => Nat.zero_le x) _
      (List.mem_map_of_mem (fun x => x.commits) h3)
  have hs0 : (0 : Rat) < (s : Rat) := by exact_mod_cast h2
  have hdiv1 : ((r.commits : Nat) : Rat) / (s : Rat) ≤ 1 :=
    (div_le_one hs0).mpr (by exact_mod_cast hc)
  have hdiv0 : (0 : Rat) ≤ ((r.commits : Nat) : Rat) / (s : Rat) :=
    div_nonneg (by positivity) (le_of_lt hs0)
  have hup : 100 + ((r.commits : Rat) / (s : Rat)) * 150 ≤ 250 := by nlinarith
  have hlo : (100 : Rat) ≤ 100 + ((r.commits : Rat) / (s : Rat)) * 150 := by
    nlinarith
  refine ⟨100 + ((r.commits : Rat) / (s : Rat)) * 150, ?_, rfl, hlo, hup⟩
  rw [branchLen, hts, if_neg (by omega : ¬s = 0), min_eq_left hup]

/-- Witness for C10 at the mock Project-A inside the mock repository list. -/
theorem C10_witness :
    ∃ l, branchLen 150 (total_commits mockData.repos) = some l ∧
      l = 100 + (((150 : Nat) : Rat) /
        (((mockData.repos.map fun x => x.commits).sum : Nat) : Rat)) * 150 ∧
      100 ≤ l ∧ l ≤ 250 :=
  C10_branch_length_bounds mockData.repos ⟨"Project-A", 12, 150⟩ (by decide)
    (by decide) (by decide)


end GenTree

